import Mathlib

/-!
# Dakara web client (`dakara_server/static/dakara.js`)

A shallow embedding of the React components of the client: `Library`,
`Player`, `Playlist` and `PlayerBox`.  Component state (`this.state`), props
and the module-level variable `previousTiming` are passed explicitly; a
handler returns the new state together with the requests it hands to
`$.ajax`, and the `success` / `error` callbacks of a request are separate
functions applied when the answer arrives.

JavaScript values are embedded as follows.
* `null` / `undefined` are `none`; a present value is `some v`.
* Entry and song ids are integers (`Int`), as the server sends them.
* Truthiness of a string-or-null value is `truthy`: present and non-empty.
* `==` / `!=` between two values that are each a boolean or `null` /
  `undefined`, or each a number or `undefined`, coincide with equality on
  `Option`.
-/

namespace Dakara

/-! ## JavaScript helpers -/

/-- Truthiness of a value that is a string, `null` or `undefined`. -/
def truthy (v : Option String) : Bool :=
  match v with
  | none => false
  | some s => s != ""

/-- Logical negation `!v` of a value that is a boolean, `null` or `undefined`. -/
def jsNot (v : Option Bool) : Bool :=
  match v with
  | some true => false
  | _ => true

/-- The method `String.prototype.substring(a, b)`: the characters from index
`min a b` up to, not including, index `max a b`, clamped to the length. -/
def substring (s : String) (a b : Nat) : String :=
  String.mk ((s.data.drop (min a b)).take (max a b - min a b))

/-- The method `Array.prototype.indexOf`: index of the first element strictly
equal to `x`, or `-1`. -/
def indexOf {α : Type} [DecidableEq α] (xs : List α) (x : α) : Int :=
  match xs with
  | [] => -1
  | y :: ys =>
    if y = x then 0
    else
      let i := indexOf ys x
      if i > -1 then i + 1 else -1

/-- The method `Array.prototype.splice(start, deleteCount)` for `0 ≤ start`:
the array after the removal. -/
def splice {α : Type} (xs : List α) (start deleteCount : Nat) : List α :=
  xs.take start ++ xs.drop (start + deleteCount)

/-! ## Data received from the server -/

structure Song where
  id : Int
  title : String
deriving DecidableEq, Repr

structure PlaylistEntry where
  id : Int
  song : Song
deriving DecidableEq, Repr

/-- Answer of `playlist/player/status/`; `PlayerBox` starts with the empty
object, where every field is `undefined`. -/
structure PlayerStatus where
  playlist_entry : Option PlaylistEntry
  paused : Option Bool
  timing : Option String
deriving DecidableEq, Repr

/-- Answer of `playlist/`. -/
structure PlaylistSnapshot where
  count : Int
  results : List PlaylistEntry
deriving DecidableEq, Repr

/-- Answer of `library/songs/`. -/
structure LibraryPage where
  count : Int
  results : List Song
  next : Option String
  previous : Option String
deriving DecidableEq, Repr

/-! ## Requests and module-level state -/

/-- The `data` of the `PUT` sent by `sendPlayerCommand`. -/
inductive PlayerCommand where
  | pause (value : Bool)
  | skip (value : Bool)
deriving DecidableEq, Repr

/-- The settings object handed to `$.ajax`. -/
structure AjaxRequest where
  url : String
  method : String
  cache : Option Bool
  data : Option PlayerCommand
deriving DecidableEq, Repr

/-- Module-level state: the variable `previousTiming` and the lines written
with `console.error`. -/
structure Globals where
  previousTiming : Option String
  console : List String
deriving DecidableEq, Repr

/-! ## `Player` -/

namespace Player

structure State where
  pauseCmd : Option Bool
  skip : Int
deriving DecidableEq, Repr

def getInitialState : State :=
  { pauseCmd := none, skip := -1 }

/-- What a control shows: the pending image or an icon with a class name. -/
inductive Button where
  | pending
  | icon (className : String)
deriving DecidableEq, Repr

/-- The local variables of `render` that reach the returned element. -/
structure View where
  timing : Option String
  songName : Option String
  playIcon : String
  playingId : Option Int
  waitingPause : Bool
  waitingSkip : Bool
  playPausebtn : Button
  skipBtn : Button
  playPauseClass : String
  skipClass : String
deriving DecidableEq, Repr

/-- Handler `handlePlayPause`: new state and the command passed to
`this.props.sendPlayerCommand`, if any. -/
def handlePlayPause (state : State) (playerStatus : PlayerStatus) :
    State × Option PlayerCommand :=
  match playerStatus.playlist_entry with
  | some _ =>
    let pause := jsNot playerStatus.paused
    ({ state with pauseCmd := some pause }, some (PlayerCommand.pause pause))
  | none => (state, none)

/-- Handler `handleSkip`: new state and the command passed to
`this.props.sendPlayerCommand`, if any. -/
def handleSkip (state : State) (playerStatus : PlayerStatus) :
    State × Option PlayerCommand :=
  match playerStatus.playlist_entry with
  | some entry =>
    ({ pauseCmd := none, skip := entry.id }, some (PlayerCommand.skip true))
  | none => (state, none)

/-- Method `render`: the view and the module-level state after the call. -/
def render (state : State) (playerStatus : PlayerStatus) (g : Globals) :
    View × Globals :=
  let tg : Option String × Globals :=
    match truthy playerStatus.timing, playerStatus.timing with
    | true, some t =>
      let t1 := substring t 3 8
      (some t1, { g with previousTiming := some t1 })
    | _, _ =>
      (g.previousTiming, { g with console := g.console ++ ["timing null"] })
  let songName : Option String :=
    match playerStatus.playlist_entry with
    | some entry => some entry.song.title
    | none => none
  let playingId : Option Int :=
    match playerStatus.playlist_entry with
    | some entry => some entry.id
    | none => none
  let playIcon : String :=
    match playerStatus.playlist_entry with
    | some _ => "fa fa-" ++ (if playerStatus.paused = some true then "play" else "pause")
    | none => "fa fa-" ++ "stop"
  let waitingPause : Bool :=
    if state.pauseCmd != none then state.pauseCmd != playerStatus.paused else false
  let waitingSkip : Bool := some state.skip == playingId
  let playPausebtn : Button :=
    if waitingPause then Button.pending else Button.icon playIcon
  let skipBtn : Button :=
    if waitingSkip then Button.pending else Button.icon "fa fa-step-forward"
  ({ timing := tg.1
     songName := songName
     playIcon := playIcon
     playingId := playingId
     waitingPause := waitingPause
     waitingSkip := waitingSkip
     playPausebtn := playPausebtn
     skipBtn := skipBtn
     playPauseClass := "play-pause control-primary" ++
       (if playerStatus.playlist_entry.isSome && !waitingPause then "" else " disabled")
     skipClass := "skip control-primary" ++
       (if playerStatus.playlist_entry.isSome && !waitingSkip then "" else " disabled") },
   tg.2)

/-- The views of successive renders.  Each step gives the component state and
the `playerStatus` prop at that render; the module-level state is threaded
from one render to the next. -/
def renderSeq (g : Globals) (steps : List (State × PlayerStatus)) : List View :=
  match steps with
  | [] => []
  | x :: rest => (render x.1 x.2 g).1 :: renderSeq (render x.1 x.2 g).2 rest

/-- Module-level state after the renders of `renderSeq`. -/
def globalsAfter (g : Globals) (steps : List (State × PlayerStatus)) : Globals :=
  match steps with
  | [] => g
  | x :: rest => globalsAfter (render x.1 x.2 g).2 rest

/-- Successive renders, one per polled status, with the component state
unchanged in between (a poll only replaces the `playerStatus` prop). -/
def renderAll (state : State) (g : Globals) (statuses : List PlayerStatus) : List View :=
  renderSeq g (statuses.map fun s => (state, s))

end Player

/-! ## `Playlist` -/

namespace Playlist

structure State where
  collapsed : Bool
deriving DecidableEq, Repr

def getInitialState : State :=
  { collapsed := true }

def handleCollapse (state : State) : State :=
  { collapsed := !state.collapsed }

/-- The local variables of `render` that reach the returned element: `list`
after the removal, the entries listed when the component is expanded, the
title shown as next song when it is collapsed, and the displayed size. -/
structure View where
  list : List PlaylistEntry
  playlistEntries : Option (List PlaylistEntry)
  next : Option String
  playlistSize : Int
deriving DecidableEq, Repr

/-- Method `render`: the view, and the object `this.props.entries` after the
call.  The local `list` is the array `this.props.entries.results` itself, so
`list.splice` changes that array in place. -/
def render (state : State) (entries : PlaylistSnapshot) (playingId : Option Int) :
    View × PlaylistSnapshot :=
  let list := entries.results
  let playingIndex := indexOf (list.map (fun item => some item.id)) playingId
  let list1 := if playingIndex > -1 then splice list playingIndex.toNat 1 else list
  let entries1 : PlaylistSnapshot := { entries with results := list1 }
  let playlistEntries : Option (List PlaylistEntry) :=
    if !state.collapsed then some list1 else none
  let next : Option String :=
    if !state.collapsed then none
    else
      match list1 with
      | entry :: _ => some entry.song.title
      | [] => none
  ({ list := list1
     playlistEntries := playlistEntries
     next := next
     playlistSize := entries1.count },
   entries1)

end Playlist

/-! ## `Library` -/

/-- Upper-case hexadecimal digit of `n < 16`. -/
def hexDigit (n : Nat) : Char :=
  if n < 10 then Char.ofNat (48 + n) else Char.ofNat (55 + n)

/-- The bytes of the UTF-8 encoding of a character. -/
def utf8Bytes (c : Char) : List Nat :=
  let n := c.toNat
  if n < 128 then [n]
  else if n < 2048 then [192 + n / 64, 128 + n % 64]
  else if n < 65536 then [224 + n / 4096, 128 + (n / 64) % 64, 128 + n % 64]
  else [240 + n / 262144, 128 + (n / 4096) % 64, 128 + (n / 64) % 64, 128 + n % 64]

/-- Characters that `encodeURIComponent` leaves as they are. -/
def uriUnreserved (c : Char) : Bool :=
  c.isAlphanum || "-_.!~*()".data.contains c || c == Char.ofNat 39

/-- The global function `encodeURIComponent`, on a well-formed string. -/
def encodeURIComponent (s : String) : String :=
  String.mk (s.data.flatMap fun c =>
    if uriUnreserved c then [c]
    else (utf8Bytes c).flatMap fun b => [Char.ofNat 37, hexDigit (b / 16), hexDigit (b % 16)])

namespace Library

structure State where
  libraryEntries : LibraryPage
  search : String
deriving DecidableEq, Repr

def getInitialState : State :=
  { libraryEntries := { count := 0, results := [], next := none, previous := none }
    search := "" }

/-- Method `refreshEntries`: the request handed to `$.ajax`, if any. -/
def refreshEntries (url : Option String) : Option AjaxRequest :=
  match truthy url, url with
  | true, some u => some { url := u, method := "GET", cache := some false, data := none }
  | _, _ => none

/-- The `success` callback of `refreshEntries`. -/
def refreshEntriesSuccess (state : State) (data : LibraryPage) : State :=
  { state with libraryEntries := data }

/-- The `error` callback of `refreshEntries`: it writes to the console only. -/
def refreshEntriesError (propsUrl : String) (g : Globals) (status err : String) : Globals :=
  { g with console := g.console ++ [propsUrl ++ " " ++ status ++ " " ++ err] }

def componentDidMount (propsUrl : String) : Option AjaxRequest :=
  refreshEntries (some (propsUrl ++ "library/songs/"))

def handleNext (state : State) : Option AjaxRequest :=
  refreshEntries state.libraryEntries.next

def handlePrevious (state : State) : Option AjaxRequest :=
  refreshEntries state.libraryEntries.previous

def handleFirst (propsUrl : String) (state : State) : Option AjaxRequest :=
  if truthy state.libraryEntries.previous then
    refreshEntries (some (propsUrl ++ "library/songs/?title=" ++ encodeURIComponent state.search))
  else none

def handleLast (propsUrl : String) (state : State) : Option AjaxRequest :=
  if truthy state.libraryEntries.next then
    refreshEntries
      (some (propsUrl ++ "library/songs/?page=last&title=" ++ encodeURIComponent state.search))
  else none

def handleSearchChange (state : State) (value : String) : State :=
  { state with search := value }

def handleSearch (propsUrl : String) (state : State) : Option AjaxRequest :=
  refreshEntries (some (propsUrl ++ "library/songs/?title=" ++ encodeURIComponent state.search))

/-- The four controls of the paginator. -/
inductive Nav where
  | first
  | previous
  | next
  | last
deriving DecidableEq, Repr

/-- The click handler bound to each control. -/
def handle (propsUrl : String) (op : Nav) (state : State) : Option AjaxRequest :=
  match op with
  | Nav.first => handleFirst propsUrl state
  | Nav.previous => handlePrevious state
  | Nav.next => handleNext state
  | Nav.last => handleLast propsUrl state

/-- A click on a control followed by the answer to its request, against a
server that answers a request from its URL alone: `some page` runs the
`success` callback, `none` the `error` callback, which leaves the state as it
is. -/
def navigate (propsUrl : String) (server : String → Option LibraryPage) (op : Nav)
    (state : State) : State :=
  match handle propsUrl op state with
  | none => state
  | some req =>
    match server req.url with
    | some data => refreshEntriesSuccess state data
    | none => state

end Library

/-! ## `PlayerBox` -/

namespace PlayerBox

structure State where
  playerStatus : PlayerStatus
  playlistEntries : PlaylistSnapshot
deriving DecidableEq, Repr

def getInitialState : State :=
  { playerStatus := { playlist_entry := none, paused := none, timing := none }
    playlistEntries := { count := 0, results := [] } }

/-- Method `sendPlayerCommand`: the request handed to `$.ajax`. -/
def sendPlayerCommand (propsUrl : String) (cmd : PlayerCommand) : AjaxRequest :=
  { url := propsUrl ++ "playlist/player/manage/", method := "PUT", cache := none,
    data := some cmd }

/-- The `success` callback of `sendPlayerCommand`: its body is empty. -/
def sendPlayerCommandSuccess (state : State) : State :=
  state

/-- The `error` callback of `sendPlayerCommand`: it writes to the console
only. -/
def sendPlayerCommandError (propsUrl : String) (g : Globals)
    (status err responseText : String) : Globals :=
  { g with console := g.console ++ [propsUrl ++ " " ++ status ++ " " ++ err ++ responseText] }

/-- Method `loadStatusFromServer`: the two requests handed to `$.ajax`. -/
def loadStatusFromServer (propsUrl : String) : List AjaxRequest :=
  [{ url := propsUrl ++ "playlist/player/status/", method := "GET", cache := some false,
     data := none },
   { url := propsUrl ++ "playlist/", method := "GET", cache := some false, data := none }]

/-- The `success` callback of the status request. -/
def statusSuccess (state : State) (data : PlayerStatus) : State :=
  { state with playerStatus := data }

/-- The `success` callback of the playlist request. -/
def playlistSuccess (state : State) (data : PlaylistSnapshot) : State :=
  { state with playlistEntries := data }

/-- Method `render`, with the renders of the `Player` and `Playlist` children:
their views, the state of `PlayerBox` after the call (the `Playlist` child
receives the object `this.state.playlistEntries` itself as `entries`), and the
module-level state. -/
def render (state : State) (player : Player.State) (playlist : Playlist.State)
    (g : Globals) : (Player.View × Playlist.View) × State × Globals :=
  let playingId : Option Int :=
    match state.playerStatus.playlist_entry with
    | some entry => some entry.id
    | none => none
  let p := Player.render player state.playerStatus g
  let l := Playlist.render playlist state.playlistEntries playingId
  ((p.1, l.1), { state with playlistEntries := l.2 }, p.2)

end PlayerBox

/-! ## The mounted application -/

/-- The states of the mounted components, the `url` prop and the module-level
state. -/
structure App where
  url : String
  box : PlayerBox.State
  player : Player.State
  playlist : Playlist.State
  library : Library.State
  globals : Globals
deriving DecidableEq, Repr

namespace App

/-- A click on the play/pause control: `Player.handlePlayPause` with the
`playerStatus` prop and `PlayerBox.sendPlayerCommand` as callback. -/
def clickPlayPause (a : App) : App × Option AjaxRequest :=
  let r := Player.handlePlayPause a.player a.box.playerStatus
  ({ a with player := r.1 }, r.2.map (PlayerBox.sendPlayerCommand a.url))

/-- A click on the skip control. -/
def clickSkip (a : App) : App × Option AjaxRequest :=
  let r := Player.handleSkip a.player a.box.playerStatus
  ({ a with player := r.1 }, r.2.map (PlayerBox.sendPlayerCommand a.url))

/-- The request of `sendPlayerCommand` fails: its `error` callback runs. -/
def commandError (a : App) (status err responseText : String) : App :=
  { a with globals := PlayerBox.sendPlayerCommandError a.url a.globals status err responseText }

/-- The status request of a poll succeeds. -/
def statusPolled (a : App) (data : PlayerStatus) : App :=
  { a with box := PlayerBox.statusSuccess a.box data }

/-- The playlist request of a poll succeeds. -/
def playlistPolled (a : App) (data : PlaylistSnapshot) : App :=
  { a with box := PlayerBox.playlistSuccess a.box data }

/-- A render of `PlayerBox` and its `Player` and `Playlist` children. -/
def render (a : App) : (Player.View × Playlist.View) × App :=
  let r := PlayerBox.render a.box a.player a.playlist a.globals
  (r.1, { a with box := r.2.1, globals := r.2.2 })

end App

/-! ## Definitions that follow the specification -/

/-- The upcoming list in the words of the specification: the results with the
first entry whose id equals `playingId` removed, the rest in order. -/
def upcomingSpec (results : List PlaylistEntry) (playingId : Option Int) :
    List PlaylistEntry :=
  match results with
  | [] => []
  | e :: rest => if some e.id = playingId then rest else e :: upcomingSpec rest playingId

/-! ## Sample data -/

def sampleSong : Song :=
  { id := 7, title := "Song" }

def sampleEntry (id : Int) : PlaylistEntry :=
  { id := id, song := sampleSong }

def sampleStatus (id : Int) (paused : Bool) : PlayerStatus :=
  { playlist_entry := some (sampleEntry id), paused := some paused,
    timing := some "00:01:23.456" }

def noGlobals : Globals :=
  { previousTiming := none, console := [] }

def sampleSnapshot : PlaylistSnapshot :=
  { count := 3, results := [sampleEntry 1, sampleEntry 2, sampleEntry 3] }

/-- The mounted application while entry `2` of `sampleSnapshot` is playing. -/
def sampleApp : App :=
  { url := "/"
    box := { playerStatus := sampleStatus 2 false, playlistEntries := sampleSnapshot }
    player := Player.getInitialState
    playlist := Playlist.getInitialState
    library := Library.getInitialState
    globals := noGlobals }

/-- A status that still names entry `id` but carries no timing. -/
def sampleStatusNoTiming (id : Int) : PlayerStatus :=
  { playlist_entry := some (sampleEntry id), paused := some false, timing := none }

/-- Three pages of a catalog of five songs, with the cursors `P1`, `P2`,
`P3`. -/
def samplePage (n : Nat) : LibraryPage :=
  match n with
  | 1 => { count := 5, results := [{ id := 1, title := "A" }, { id := 2, title := "B" }],
           next := some "P2", previous := none }
  | 2 => { count := 5, results := [{ id := 3, title := "C" }, { id := 4, title := "D" }],
           next := some "P3", previous := some "P1" }
  | _ => { count := 5, results := [{ id := 5, title := "E" }],
           next := none, previous := some "P2" }

/-- A server that answers every request: `P2` and `P3` with those pages, the
request for the last page with page 3, and any other URL with page 1. -/
def sampleServer (url : String) : Option LibraryPage :=
  if url = "P2" then some (samplePage 2)
  else if url = "P3" then some (samplePage 3)
  else if url = "/library/songs/?page=last&title=" then some (samplePage 3)
  else some (samplePage 1)

def sampleLibrary (n : Nat) : Library.State :=
  { libraryEntries := samplePage n, search := "" }

/-! ## `Player`: pending controls and icon -/

/-- C1: from a status with an active entry and paused flag `b`,
`handlePlayPause` sends the command with `pause = !b` and records `!b`; a
later render then shows the pending image on the play/pause control when the
status has `paused = b` and the icon when it has `paused = !b`. -/
theorem handlePlayPause_expectation (state : Player.State) (playerStatus : PlayerStatus)
    (entry : PlaylistEntry) (b : Bool)
    (hentry : playerStatus.playlist_entry = some entry)
    (hpaused : playerStatus.paused = some b) :
    (Player.handlePlayPause state playerStatus).2 = some (PlayerCommand.pause (!b)) ∧
    (Player.handlePlayPause state playerStatus).1.pauseCmd = some (!b) ∧
    ∀ (later : PlayerStatus) (g : Globals),
      (later.paused = some b →
        (Player.render (Player.handlePlayPause state playerStatus).1 later g).1.waitingPause
            = true ∧
        (Player.render (Player.handlePlayPause state playerStatus).1 later g).1.playPausebtn
            = Player.Button.pending) ∧
      (later.paused = some (!b) →
        (Player.render (Player.handlePlayPause state playerStatus).1 later g).1.waitingPause
            = false ∧
        (Player.render (Player.handlePlayPause state playerStatus).1 later g).1.playPausebtn
            ≠ Player.Button.pending) := by
  have h1 : Player.handlePlayPause state playerStatus =
      ({ state with pauseCmd := some (!b) }, some (PlayerCommand.pause (!b))) := by
    cases b <;> simp [Player.handlePlayPause, hentry, hpaused, jsNot]
  rw [h1]
  refine ⟨rfl, rfl, ?_⟩
  intro later g
  constructor
  · intro hl
    cases b <;> simp [Player.render, hl]
  · intro hl
    cases b <;> simp [Player.render, hl]

theorem handlePlayPause_expectation_witness :
    (sampleStatus 4 false).playlist_entry = some (sampleEntry 4) ∧
    (sampleStatus 4 false).paused = some false ∧
    (Player.handlePlayPause Player.getInitialState (sampleStatus 4 false)).1.pauseCmd
      = some true :=
  ⟨rfl, rfl,
    (handlePlayPause_expectation Player.getInitialState (sampleStatus 4 false)
      (sampleEntry 4) false rfl rfl).2.1⟩

/-- C3: after `handleSkip` is issued while the entry `entry` is playing, a
render with a status whose entry has the same id shows the pending image on
the skip control, and a render with a status without entry, or with an entry
of a different id, shows the skip icon. -/
theorem handleSkip_pending (state : Player.State) (playerStatus : PlayerStatus)
    (entry : PlaylistEntry) (hentry : playerStatus.playlist_entry = some entry) :
    (Player.handleSkip state playerStatus).2 = some (PlayerCommand.skip true) ∧
    (Player.handleSkip state playerStatus).1.skip = entry.id ∧
    ∀ (later : PlayerStatus) (g : Globals),
      (∀ e, later.playlist_entry = some e → e.id = entry.id →
        (Player.render (Player.handleSkip state playerStatus).1 later g).1.waitingSkip = true ∧
        (Player.render (Player.handleSkip state playerStatus).1 later g).1.skipBtn
            = Player.Button.pending) ∧
      (later.playlist_entry = none →
        (Player.render (Player.handleSkip state playerStatus).1 later g).1.waitingSkip = false ∧
        (Player.render (Player.handleSkip state playerStatus).1 later g).1.skipBtn
            = Player.Button.icon "fa fa-step-forward") ∧
      (∀ e, later.playlist_entry = some e → e.id ≠ entry.id →
        (Player.render (Player.handleSkip state playerStatus).1 later g).1.waitingSkip = false ∧
        (Player.render (Player.handleSkip state playerStatus).1 later g).1.skipBtn
            = Player.Button.icon "fa fa-step-forward") := by
  have h1 : Player.handleSkip state playerStatus =
      ({ pauseCmd := none, skip := entry.id }, some (PlayerCommand.skip true)) := by
    simp [Player.handleSkip, hentry]
  rw [h1]
  refine ⟨rfl, rfl, ?_⟩
  intro later g
  refine ⟨?_, ?_, ?_⟩
  · intro e he hid
    simp [Player.render, he, hid]
  · intro he
    simp [Player.render, he]
  · intro e he hid
    have hid2 : ¬ entry.id = e.id := fun h => hid h.symm
    simp [Player.render, he, hid2]

theorem handleSkip_pending_witness :
    (sampleStatus 4 false).playlist_entry = some (sampleEntry 4) ∧
    (Player.handleSkip Player.getInitialState (sampleStatus 4 false)).1.skip
      = (sampleEntry 4).id :=
  ⟨rfl, (handleSkip_pending Player.getInitialState (sampleStatus 4 false)
      (sampleEntry 4) rfl).2.1⟩

/-- C4, as stated, fails: for a status with an entry and `paused = true` the
icon chosen by `render` is the play icon, not the pause icon. -/
theorem render_icon_paused_is_play :
    (sampleStatus 4 true).playlist_entry ≠ none ∧
    (sampleStatus 4 true).paused = some true ∧
    (Player.render Player.getInitialState (sampleStatus 4 true) noGlobals).1.playIcon
      = "fa fa-play" ∧
    (Player.render Player.getInitialState (sampleStatus 4 true) noGlobals).1.playIcon
      ≠ "fa fa-pause" := by
  refine ⟨by decide, rfl, by decide, by decide⟩

/-- C4, amended: the icon chosen by `render` is the stop icon if the status
has no entry, otherwise the play icon if `paused` is true and the pause icon
if it is not; it is the same for every component state and module-level
state. -/
theorem render_icon (state : Player.State) (playerStatus : PlayerStatus) (g : Globals) :
    (Player.render state playerStatus g).1.playIcon =
      (match playerStatus.playlist_entry with
       | none => "fa fa-stop"
       | some _ => if playerStatus.paused = some true then "fa fa-play" else "fa fa-pause") ∧
    ∀ (state2 : Player.State) (g2 : Globals),
      (Player.render state2 playerStatus g2).1.playIcon
        = (Player.render state playerStatus g).1.playIcon := by
  constructor
  · cases h : playerStatus.playlist_entry with
    | none => simp only [Player.render, h]; decide
    | some e =>
      by_cases hp : playerStatus.paused = some true
      · simp only [Player.render, h, hp, if_true]; decide
      · simp only [Player.render, h, hp, if_false]; decide
  · intro state2 g2
    simp only [Player.render]

/-- C2, as stated, fails: after a toggle issued from `paused = false`, a
status with `paused = true` matches the expectation and shows no pending
image, yet the following status with `paused = false` shows it again. -/
theorem pause_pending_shown_again :
    (Player.handlePlayPause Player.getInitialState (sampleStatus 4 false)).1.pauseCmd
      = some true ∧
    (Player.renderAll (Player.handlePlayPause Player.getInitialState (sampleStatus 4 false)).1
        noGlobals [sampleStatus 4 true, sampleStatus 4 false]).map
      (fun v => v.waitingPause) = [false, true] := by
  constructor
  · rfl
  · decide

theorem renderSeq_waitingPause (state : Player.State) (g : Globals)
    (statuses : List PlayerStatus) :
    (Player.renderAll state g statuses).map (fun v => v.waitingPause) =
      statuses.map (fun s =>
        if state.pauseCmd != none then state.pauseCmd != s.paused else false) := by
  unfold Player.renderAll
  induction statuses generalizing g with
  | nil => rfl
  | cons s rest ih =>
    simp only [List.map_cons, Player.renderSeq]
    rw [ih]
    simp [Player.render]

/-- C2, amended: polling never clears the record of a pause toggle.  After a
toggle issued from `paused = b`, each later status shows the pending image
exactly when its own `paused` differs from `!b`, whatever statuses came
before it. -/
theorem pause_pending_each_status (state : Player.State) (playerStatus : PlayerStatus)
    (entry : PlaylistEntry) (b : Bool)
    (hentry : playerStatus.playlist_entry = some entry)
    (hpaused : playerStatus.paused = some b)
    (g : Globals) (statuses : List PlayerStatus) :
    (Player.renderAll (Player.handlePlayPause state playerStatus).1 g statuses).map
        (fun v => v.waitingPause) =
      statuses.map (fun s => s.paused != some (!b)) := by
  rw [renderSeq_waitingPause]
  have h1 : (Player.handlePlayPause state playerStatus).1.pauseCmd = some (!b) := by
    cases b <;> simp [Player.handlePlayPause, hentry, hpaused, jsNot]
  rw [h1]
  apply List.map_congr_left
  intro s _
  cases hs : s.paused with
  | none => cases b <;> rfl
  | some p => cases b <;> cases p <;> rfl

theorem pause_pending_each_status_witness :
    (sampleStatus 4 false).playlist_entry = some (sampleEntry 4) ∧
    (sampleStatus 4 false).paused = some false ∧
    (Player.renderAll (Player.handlePlayPause Player.getInitialState (sampleStatus 4 false)).1
        noGlobals [sampleStatus 4 true, sampleStatus 4 false, sampleStatus 4 true]).map
      (fun v => v.waitingPause) =
      [sampleStatus 4 true, sampleStatus 4 false, sampleStatus 4 true].map
        (fun s => s.paused != some (!false)) :=
  ⟨rfl, rfl,
    pause_pending_each_status Player.getInitialState (sampleStatus 4 false) (sampleEntry 4)
      false rfl rfl noGlobals [sampleStatus 4 true, sampleStatus 4 false, sampleStatus 4 true]⟩

/-! ## `Player`: displayed timing -/

theorem render_timing_present (state : Player.State) (s : PlayerStatus) (g : Globals)
    (t : String) (ht : s.timing = some t) (hne : t ≠ "") :
    (Player.render state s g).1.timing = some (substring t 3 8) ∧
    (Player.render state s g).2.previousTiming = some (substring t 3 8) := by
  have htr : truthy (some t) = true := by simp [truthy, hne]
  simp [Player.render, htr, ht]

theorem render_timing_absent (state : Player.State) (s : PlayerStatus) (g : Globals)
    (h : truthy s.timing = false) :
    (Player.render state s g).1.timing = g.previousTiming ∧
    (Player.render state s g).2.previousTiming = g.previousTiming := by
  cases ht : s.timing with
  | none => simp [Player.render, ht, truthy]
  | some t =>
    rw [ht] at h
    simp [Player.render, h, ht]

theorem renderSeq_timing_absent (g : Globals) (steps : List (Player.State × PlayerStatus))
    (h : ∀ x ∈ steps, truthy x.2.timing = false) :
    ∀ v ∈ Player.renderSeq g steps, v.timing = g.previousTiming := by
  induction steps generalizing g with
  | nil => intro v hv; simp [Player.renderSeq] at hv
  | cons x rest ih =>
    have hx := render_timing_absent x.1 x.2 g (h x (List.mem_cons_self _ _))
    intro v hv
    simp only [Player.renderSeq, List.mem_cons] at hv
    rcases hv with hv | hv
    · rw [hv]; exact hx.1
    · have := ih (Player.render x.1 x.2 g).2
        (fun y hy => h y (List.mem_cons_of_mem _ hy)) v hv
      rw [this, hx.2]

theorem globalsAfter_append (g : Globals) (xs ys : List (Player.State × PlayerStatus)) :
    Player.globalsAfter g (xs ++ ys) = Player.globalsAfter (Player.globalsAfter g xs) ys := by
  induction xs generalizing g with
  | nil => rfl
  | cons x rest ih => simp only [List.cons_append, Player.globalsAfter]; exact ih _

theorem substring_three_eight_ne_empty (t : String) (h : 3 < t.length) :
    substring t 3 8 ≠ "" := by
  intro hs
  have hd : (substring t 3 8).data = [] := by rw [hs]
  have hlen : 3 < t.data.length := h
  simp only [substring] at hd
  have h2 : ((List.drop (min 3 8) t.data).take (max 3 8 - min 3 8)).length = 0 := by
    rw [hd]; rfl
  simp only [List.length_take, List.length_drop] at h2
  omega

/-- C7: once a status with a non-empty timing `t` has been rendered (showing
characters 3 to 7 of `t`), every later render whose status has no timing, up
to the next status with a non-empty timing, shows that same value, which is
the one kept in `previousTiming`: the display is not blanked.  The value is
present, and non-empty when `t` has more than three characters. -/
theorem timing_retained (g : Globals) (before : List (Player.State × PlayerStatus))
    (state : Player.State) (s : PlayerStatus) (t : String)
    (later : List (Player.State × PlayerStatus))
    (ht : s.timing = some t) (hne : t ≠ "")
    (hlater : ∀ x ∈ later, truthy x.2.timing = false) :
    (Player.render state s (Player.globalsAfter g before)).1.timing = some (substring t 3 8) ∧
    ∀ v ∈ Player.renderSeq (Player.globalsAfter g (before ++ [(state, s)])) later,
      v.timing = (Player.render state s (Player.globalsAfter g before)).1.timing ∧
      v.timing = (Player.globalsAfter g (before ++ [(state, s)])).previousTiming ∧
      v.timing ≠ none ∧
      (3 < t.length → v.timing ≠ some "") := by
  have hr := render_timing_present state s (Player.globalsAfter g before) t ht hne
  have hg : (Player.globalsAfter g (before ++ [(state, s)])).previousTiming
      = some (substring t 3 8) := by
    rw [globalsAfter_append]
    simp only [Player.globalsAfter]
    exact hr.2
  refine ⟨hr.1, ?_⟩
  intro v hv
  have hv2 := renderSeq_timing_absent _ later hlater v hv
  rw [hg] at hv2
  refine ⟨by rw [hv2, hr.1], by rw [hv2, hg], by rw [hv2]; simp, ?_⟩
  intro hlen
  rw [hv2]
  intro hc
  exact substring_three_eight_ne_empty t hlen (Option.some.inj hc)

theorem timing_retained_witness :
    (sampleStatus 4 false).timing = some "00:01:23.456" ∧
    "00:01:23.456" ≠ "" ∧
    (∀ x ∈ [(Player.getInitialState, sampleStatusNoTiming 4)], truthy x.2.timing = false) ∧
    (Player.render Player.getInitialState (sampleStatus 4 false)
        (Player.globalsAfter noGlobals [])).1.timing = some (substring "00:01:23.456" 3 8) :=
  ⟨rfl, by decide, by decide,
    (timing_retained noGlobals [] Player.getInitialState (sampleStatus 4 false)
      "00:01:23.456" [(Player.getInitialState, sampleStatusNoTiming 4)]
      rfl (by decide) (by decide)).1⟩

theorem timing_example :
    (Player.renderSeq noGlobals
        [(Player.getInitialState, sampleStatus 4 false),
         (Player.getInitialState, sampleStatusNoTiming 4),
         (Player.getInitialState, sampleStatusNoTiming 4)]).map (fun v => v.timing) =
      [some "01:23", some "01:23", some "01:23"] := by
  decide

/-! ## `PlayerBox.sendPlayerCommand`: a failed command -/

/-- C8, as stated, fails: after a pause toggle, respectively a skip, whose
request fails, the render for the unchanged status still shows the pending
image on the control. -/
theorem failed_command_stays_pending :
    ((sampleApp.clickPlayPause.1.commandError "error" "Bad Gateway" "").box.playerStatus
        = sampleApp.box.playerStatus ∧
      (sampleApp.clickPlayPause.1.commandError "error" "Bad Gateway" "").render.1.1.waitingPause
        = true) ∧
    ((sampleApp.clickSkip.1.commandError "error" "Bad Gateway" "").box.playerStatus
        = sampleApp.box.playerStatus ∧
      (sampleApp.clickSkip.1.commandError "error" "Bad Gateway" "").render.1.1.waitingSkip
        = true) := by
  decide

/-- C8, amended: the `error` callback of `sendPlayerCommand` only writes to
the console.  After a pause toggle or a skip issued while an entry is playing
and a failure of its request, the state of `Player` is the one the handler
left and the player status is unchanged, so the render shows the pending
image on the play/pause control, respectively on the skip control. -/
theorem failed_command_keeps_record (a : App) (entry : PlaylistEntry)
    (status err responseText : String)
    (hentry : a.box.playerStatus.playlist_entry = some entry) :
    ((a.clickPlayPause.1.commandError status err responseText).player
        = a.clickPlayPause.1.player ∧
      (a.clickPlayPause.1.commandError status err responseText).box.playerStatus
        = a.box.playerStatus ∧
      (a.clickPlayPause.1.commandError status err responseText).render.1.1.waitingPause
        = true ∧
      (a.clickPlayPause.1.commandError status err responseText).render.1.1.playPausebtn
        = Player.Button.pending) ∧
    ((a.clickSkip.1.commandError status err responseText).player = a.clickSkip.1.player ∧
      (a.clickSkip.1.commandError status err responseText).box.playerStatus
        = a.box.playerStatus ∧
      (a.clickSkip.1.commandError status err responseText).render.1.1.waitingSkip = true ∧
      (a.clickSkip.1.commandError status err responseText).render.1.1.skipBtn
        = Player.Button.pending) := by
  refine ⟨⟨rfl, rfl, ?_, ?_⟩, ⟨rfl, rfl, ?_, ?_⟩⟩
  · cases hp : a.box.playerStatus.paused with
    | none =>
      simp [App.render, App.commandError, App.clickPlayPause, PlayerBox.render,
        Player.render, Player.handlePlayPause, hentry, hp, jsNot]
    | some p =>
      cases p <;>
      simp [App.render, App.commandError, App.clickPlayPause, PlayerBox.render,
        Player.render, Player.handlePlayPause, hentry, hp, jsNot]
  · cases hp : a.box.playerStatus.paused with
    | none =>
      simp [App.render, App.commandError, App.clickPlayPause, PlayerBox.render,
        Player.render, Player.handlePlayPause, hentry, hp, jsNot]
    | some p =>
      cases p <;>
      simp [App.render, App.commandError, App.clickPlayPause, PlayerBox.render,
        Player.render, Player.handlePlayPause, hentry, hp, jsNot]
  · simp [App.render, App.commandError, App.clickSkip, PlayerBox.render,
      Player.render, Player.handleSkip, hentry]
  · simp [App.render, App.commandError, App.clickSkip, PlayerBox.render,
      Player.render, Player.handleSkip, hentry]

theorem failed_command_keeps_record_witness :
    sampleApp.box.playerStatus.playlist_entry = some (sampleEntry 2) ∧
    (sampleApp.clickPlayPause.1.commandError "error" "Bad Gateway" "").render.1.1.playPausebtn
      = Player.Button.pending :=
  ⟨rfl, (failed_command_keeps_record sampleApp (sampleEntry 2) "error" "Bad Gateway" ""
    rfl).1.2.2.2⟩

/-! ## `Playlist.render`: the upcoming list -/

theorem indexOf_ge {α : Type} [DecidableEq α] (xs : List α) (x : α) : -1 ≤ indexOf xs x := by
  induction xs with
  | nil => simp [indexOf]
  | cons y ys ih =>
    simp only [indexOf]
    split
    · omega
    · split <;> omega

theorem splice_indexOf_eq_upcomingSpec (xs : List PlaylistEntry) (playingId : Option Int) :
    (if indexOf (xs.map (fun item => some item.id)) playingId > -1 then
        splice xs (indexOf (xs.map (fun item => some item.id)) playingId).toNat 1
      else xs) = upcomingSpec xs playingId := by
  induction xs with
  | nil => simp [indexOf, upcomingSpec]
  | cons e rest ih =>
    have hge := indexOf_ge (rest.map (fun item => some item.id)) playingId
    by_cases he : some e.id = playingId
    · simp [indexOf, upcomingSpec, he, splice]
    · simp only [List.map_cons, indexOf, upcomingSpec, he, if_false]
      by_cases hi : indexOf (rest.map (fun item => some item.id)) playingId > -1
      · simp only [hi, if_true] at ih ⊢
        have hpos : indexOf (rest.map (fun item => some item.id)) playingId + 1 > -1 := by
          omega
        have hnat : (indexOf (rest.map (fun item => some item.id)) playingId + 1).toNat
            = (indexOf (rest.map (fun item => some item.id)) playingId).toNat + 1 := by
          omega
        simp only [hpos, if_true, hnat]
        rw [← ih]
        simp [splice]
      · simp only [hi, if_false] at ih ⊢
        simp only [show ¬ ((-1 : Int) > -1) by omega, if_false]
        rw [← ih]

theorem upcomingSpec_split (pre post : List PlaylistEntry) (e : PlaylistEntry)
    (playingId : Option Int) (he : some e.id = playingId)
    (hpre : ∀ x ∈ pre, some x.id ≠ playingId) :
    upcomingSpec (pre ++ e :: post) playingId = pre ++ post := by
  induction pre with
  | nil => simp [upcomingSpec, he]
  | cons x rest ih =>
    have hx : ¬ some x.id = playingId := hpre x (List.mem_cons_self _ _)
    have ih2 := ih (fun y hy => hpre y (List.mem_cons_of_mem _ hy))
    rw [List.cons_append, upcomingSpec, if_neg hx, ih2, List.cons_append]

theorem upcomingSpec_no_match (xs : List PlaylistEntry) (playingId : Option Int)
    (h : ∀ x ∈ xs, some x.id ≠ playingId) : upcomingSpec xs playingId = xs := by
  induction xs with
  | nil => rfl
  | cons x rest ih =>
    have hx : ¬ some x.id = playingId := h x (List.mem_cons_self _ _)
    simp only [upcomingSpec, hx, if_false]
    rw [ih (fun y hy => h y (List.mem_cons_of_mem _ hy))]

/-- C5: the list computed by `Playlist.render` is the results with the first
entry whose id equals `playingId` removed and the other entries in their
order (`upcomingSpec`): when the results are `pre ++ e :: post` with `e` the
first entry of that id, the list is `pre ++ post`; when no entry has that id,
the list is the results.  For ids `1, 2, 3`, `playingId = 2` gives `1, 3` and
`playingId = 99` gives `1, 2, 3`. -/
theorem render_upcoming (state : Playlist.State) (entries : PlaylistSnapshot)
    (playingId : Option Int) :
    (Playlist.render state entries playingId).1.list
      = upcomingSpec entries.results playingId ∧
    (∀ (pre post : List PlaylistEntry) (e : PlaylistEntry),
      entries.results = pre ++ e :: post → some e.id = playingId →
      (∀ x ∈ pre, some x.id ≠ playingId) →
      (Playlist.render state entries playingId).1.list = pre ++ post) ∧
    ((∀ x ∈ entries.results, some x.id ≠ playingId) →
      (Playlist.render state entries playingId).1.list = entries.results) ∧
    (Playlist.render state sampleSnapshot (some 2)).1.list = [sampleEntry 1, sampleEntry 3] ∧
    (Playlist.render state sampleSnapshot (some 99)).1.list
      = [sampleEntry 1, sampleEntry 2, sampleEntry 3] := by
  have key : ∀ (en : PlaylistSnapshot) (pid : Option Int),
      (Playlist.render state en pid).1.list = upcomingSpec en.results pid := by
    intro en pid
    simp only [Playlist.render]
    exact splice_indexOf_eq_upcomingSpec en.results pid
  refine ⟨key _ _, ?_, ?_, ?_, ?_⟩
  · intro pre post e hres he hpre
    rw [key, hres, upcomingSpec_split pre post e playingId he hpre]
  · intro h
    rw [key, upcomingSpec_no_match _ _ h]
  · rw [key]; decide
  · rw [key]; decide

theorem render_upcoming_witness :
    sampleSnapshot.results = [sampleEntry 1] ++ sampleEntry 2 :: [sampleEntry 3] ∧
    some (sampleEntry 2).id = (some 2 : Option Int) ∧
    (∀ x ∈ [sampleEntry 1], some x.id ≠ (some 2 : Option Int)) ∧
    (Playlist.render Playlist.getInitialState sampleSnapshot (some 2)).1.list
      = [sampleEntry 1] ++ [sampleEntry 3] :=
  ⟨rfl, rfl, by decide,
    (render_upcoming Playlist.getInitialState sampleSnapshot (some 2)).2.1
      [sampleEntry 1] [sampleEntry 3] (sampleEntry 2) rfl rfl (by decide)⟩

/-- C6 fails on the code: one render of the application with the snapshot of
ids `1, 2, 3` while entry `2` plays leaves the snapshot held by `PlayerBox`
with the results of ids `1, 3`.  When the next status then names entry `3`
while the snapshot has not yet been replaced, the render lists entry `1`
alone: entry `2` is neither playing nor listed. -/
theorem render_changes_snapshot :
    sampleApp.box.playlistEntries.results = [sampleEntry 1, sampleEntry 2, sampleEntry 3] ∧
    sampleApp.render.2.box.playlistEntries.results = [sampleEntry 1, sampleEntry 3] ∧
    sampleApp.render.2.box.playlistEntries ≠ sampleApp.box.playlistEntries ∧
    ((sampleApp.render.2.statusPolled (sampleStatus 3 false)).render).1.2.list
      = [sampleEntry 1] := by
  decide

/-! ## `Library`: the paginator -/

theorem refreshEntries_of_truthy (u : String) (h : u ≠ "") :
    Library.refreshEntries (some u)
      = some { url := u, method := "GET", cache := some false, data := none } := by
  have ht : truthy (some u) = true := by simp [truthy, h]
  simp [Library.refreshEntries, ht]

theorem refreshEntries_of_falsy (v : Option String) (h : truthy v = false) :
    Library.refreshEntries v = none := by
  cases v with
  | none => simp [Library.refreshEntries, truthy]
  | some u => simp [Library.refreshEntries, h]

/-- C9: `handleFirst` issues no request and the page stays as it is when
`previous` is absent; `handleNext` / `handlePrevious` issue one `GET` request
whose URL is the `next` / `previous` cursor of the page when it is present,
and on success the page is the response and the search text is kept; they
issue no request and the page stays as it is when that cursor is absent.  A
cursor is present when it is a non-empty string. -/
theorem paginator_navigation (propsUrl : String) (server : String → Option LibraryPage)
    (state : Library.State) :
    (truthy state.libraryEntries.previous = false →
      Library.handleFirst propsUrl state = none ∧
      Library.navigate propsUrl server Library.Nav.first state = state) ∧
    (∀ u, state.libraryEntries.next = some u → u ≠ "" →
      Library.handleNext state
        = some { url := u, method := "GET", cache := some false, data := none } ∧
      ∀ data, server u = some data →
        Library.navigate propsUrl server Library.Nav.next state
          = { libraryEntries := data, search := state.search }) ∧
    (truthy state.libraryEntries.next = false →
      Library.handleNext state = none ∧
      Library.navigate propsUrl server Library.Nav.next state = state) ∧
    (∀ u, state.libraryEntries.previous = some u → u ≠ "" →
      Library.handlePrevious state
        = some { url := u, method := "GET", cache := some false, data := none } ∧
      ∀ data, server u = some data →
        Library.navigate propsUrl server Library.Nav.previous state
          = { libraryEntries := data, search := state.search }) ∧
    (truthy state.libraryEntries.previous = false →
      Library.handlePrevious state = none ∧
      Library.navigate propsUrl server Library.Nav.previous state = state) := by
  refine ⟨?_, ?_, ?_, ?_, ?_⟩
  · intro h
    simp [Library.navigate, Library.handle, Library.handleFirst, h]
  · intro u hu hne
    have hr : Library.handleNext state
        = some { url := u, method := "GET", cache := some false, data := none } := by
      rw [Library.handleNext, hu]; exact refreshEntries_of_truthy u hne
    refine ⟨hr, ?_⟩
    intro data hd
    simp [Library.navigate, Library.handle, hr, hd, Library.refreshEntriesSuccess]
  · intro h
    have hr : Library.handleNext state = none := refreshEntries_of_falsy _ h
    simp [Library.navigate, Library.handle, hr]
  · intro u hu hne
    have hr : Library.handlePrevious state
        = some { url := u, method := "GET", cache := some false, data := none } := by
      rw [Library.handlePrevious, hu]; exact refreshEntries_of_truthy u hne
    refine ⟨hr, ?_⟩
    intro data hd
    simp [Library.navigate, Library.handle, hr, hd, Library.refreshEntriesSuccess]
  · intro h
    have hr : Library.handlePrevious state = none := refreshEntries_of_falsy _ h
    simp [Library.navigate, Library.handle, hr]

theorem paginator_navigation_witness :
    (truthy (sampleLibrary 1).libraryEntries.previous = false ∧
      Library.navigate "/" sampleServer Library.Nav.first (sampleLibrary 1) = sampleLibrary 1) ∧
    ((sampleLibrary 1).libraryEntries.next = some "P2" ∧ "P2" ≠ "" ∧
      sampleServer "P2" = some (samplePage 2) ∧
      Library.navigate "/" sampleServer Library.Nav.next (sampleLibrary 1)
        = { libraryEntries := samplePage 2, search := (sampleLibrary 1).search }) :=
  ⟨⟨rfl, ((paginator_navigation "/" sampleServer (sampleLibrary 1)).1 rfl).2⟩,
   ⟨rfl, by decide, rfl,
    ((paginator_navigation "/" sampleServer (sampleLibrary 1)).2.1 "P2" rfl (by decide)).2
      (samplePage 2) rfl⟩⟩

theorem paginator_example :
    Library.handleFirst "/" (sampleLibrary 1) = none ∧
    Library.navigate "/" sampleServer Library.Nav.first (sampleLibrary 1) = sampleLibrary 1 ∧
    (Library.handleNext (sampleLibrary 1)).map (fun r => r.url) = some "P2" ∧
    Library.navigate "/" sampleServer Library.Nav.next (sampleLibrary 1) = sampleLibrary 2 ∧
    (Library.handlePrevious (sampleLibrary 2)).map (fun r => r.url) = some "P1" ∧
    Library.navigate "/" sampleServer Library.Nav.previous (sampleLibrary 2)
      = sampleLibrary 1 := by
  decide

/-- C10, as stated, fails for `next` and `previous`: against a fixed server
that answers every request, from page 1 one `next` gives page 2 and two give
page 3; from page 3 one `previous` gives page 2 and two give page 1. -/
theorem next_previous_not_idempotent :
    (Library.navigate "/" sampleServer Library.Nav.next (sampleLibrary 1) = sampleLibrary 2 ∧
      Library.navigate "/" sampleServer Library.Nav.next
        (Library.navigate "/" sampleServer Library.Nav.next (sampleLibrary 1))
        = sampleLibrary 3 ∧
      sampleLibrary 3 ≠ sampleLibrary 2) ∧
    (Library.navigate "/" sampleServer Library.Nav.previous (sampleLibrary 3)
        = sampleLibrary 2 ∧
      Library.navigate "/" sampleServer Library.Nav.previous
        (Library.navigate "/" sampleServer Library.Nav.previous (sampleLibrary 3))
        = sampleLibrary 1 ∧
      sampleLibrary 1 ≠ sampleLibrary 2) := by
  decide

theorem navigate_first_twice (propsUrl : String) (server : String → Option LibraryPage)
    (state : Library.State) :
    Library.navigate propsUrl server Library.Nav.first
        (Library.navigate propsUrl server Library.Nav.first state)
      = Library.navigate propsUrl server Library.Nav.first state := by
  cases hh : Library.handle propsUrl Library.Nav.first state with
  | none => simp [Library.navigate, hh]
  | some req =>
    cases hs : server req.url with
    | none => simp [Library.navigate, hh, hs]
    | some data =>
      have h1 : Library.navigate propsUrl server Library.Nav.first state
          = Library.refreshEntriesSuccess state data := by
        simp [Library.navigate, hh, hs]
      rw [h1]
      have h2 : Library.handle propsUrl Library.Nav.first
            (Library.refreshEntriesSuccess state data) = none ∨
          Library.handle propsUrl Library.Nav.first
            (Library.refreshEntriesSuccess state data) = some req := by
        simp only [Library.handle, Library.handleFirst, Library.refreshEntriesSuccess] at hh ⊢
        by_cases hp : truthy data.previous = true
        · right
          simp only [hp, if_true]
          by_cases hq : truthy state.libraryEntries.previous = true
          · simpa [hq] using hh
          · simp [hq] at hh
        · left
          simp [hp]
      rcases h2 with h2 | h2
      · simp [Library.navigate, h2]
      · simp only [Library.navigate, h2, hs]
        simp [Library.refreshEntriesSuccess]

theorem navigate_last_twice (propsUrl : String) (server : String → Option LibraryPage)
    (state : Library.State) :
    Library.navigate propsUrl server Library.Nav.last
        (Library.navigate propsUrl server Library.Nav.last state)
      = Library.navigate propsUrl server Library.Nav.last state := by
  cases hh : Library.handle propsUrl Library.Nav.last state with
  | none => simp [Library.navigate, hh]
  | some req =>
    cases hs : server req.url with
    | none => simp [Library.navigate, hh, hs]
    | some data =>
      have h1 : Library.navigate propsUrl server Library.Nav.last state
          = Library.refreshEntriesSuccess state data := by
        simp [Library.navigate, hh, hs]
      rw [h1]
      have h2 : Library.handle propsUrl Library.Nav.last
            (Library.refreshEntriesSuccess state data) = none ∨
          Library.handle propsUrl Library.Nav.last
            (Library.refreshEntriesSuccess state data) = some req := by
        simp only [Library.handle, Library.handleLast, Library.refreshEntriesSuccess] at hh ⊢
        by_cases hp : truthy data.next = true
        · right
          simp only [hp, if_true]
          by_cases hq : truthy state.libraryEntries.next = true
          · simpa [hq] using hh
          · simp [hq] at hh
        · left
          simp [hp]
      rcases h2 with h2 | h2
      · simp [Library.navigate, h2]
      · simp only [Library.navigate, h2, hs]
        simp [Library.refreshEntriesSuccess]

/-- C10, amended: against a fixed server, whatever it answers, `first` and
`last` applied twice give the same state as applied once, for every search
text and every current page.  `next` and `previous` follow the cursor of the
page they are applied to: applied twice they give the same page as applied
once when the page reached by the first application has no `next`,
respectively `previous`, cursor. -/
theorem first_last_idempotent (propsUrl : String) (server : String → Option LibraryPage)
    (state : Library.State) :
    Library.navigate propsUrl server Library.Nav.first
        (Library.navigate propsUrl server Library.Nav.first state)
      = Library.navigate propsUrl server Library.Nav.first state ∧
    Library.navigate propsUrl server Library.Nav.last
        (Library.navigate propsUrl server Library.Nav.last state)
      = Library.navigate propsUrl server Library.Nav.last state ∧
    (truthy (Library.navigate propsUrl server Library.Nav.next state).libraryEntries.next
        = false →
      Library.navigate propsUrl server Library.Nav.next
          (Library.navigate propsUrl server Library.Nav.next state)
        = Library.navigate propsUrl server Library.Nav.next state) ∧
    (truthy (Library.navigate propsUrl server Library.Nav.previous state).libraryEntries.previous
        = false →
      Library.navigate propsUrl server Library.Nav.previous
          (Library.navigate propsUrl server Library.Nav.previous state)
        = Library.navigate propsUrl server Library.Nav.previous state) := by
  refine ⟨navigate_first_twice propsUrl server state,
    navigate_last_twice propsUrl server state, ?_, ?_⟩
  · intro h
    have hr := refreshEntries_of_falsy _ h
    generalize Library.navigate propsUrl server Library.Nav.next state = s1 at hr ⊢
    simp [Library.navigate, Library.handle, Library.handleNext, hr]
  · intro h
    have hr := refreshEntries_of_falsy _ h
    generalize Library.navigate propsUrl server Library.Nav.previous state = s1 at hr ⊢
    simp [Library.navigate, Library.handle, Library.handlePrevious, hr]

theorem first_last_idempotent_witness :
    truthy (Library.navigate "/" sampleServer Library.Nav.next
        (sampleLibrary 2)).libraryEntries.next = false ∧
    Library.navigate "/" sampleServer Library.Nav.next
        (Library.navigate "/" sampleServer Library.Nav.next (sampleLibrary 2))
      = Library.navigate "/" sampleServer Library.Nav.next (sampleLibrary 2) :=
  ⟨by decide,
    (first_last_idempotent "/" sampleServer (sampleLibrary 2)).2.2.1 (by decide)⟩

theorem first_last_example :
    Library.navigate "/" sampleServer Library.Nav.first (sampleLibrary 3) = sampleLibrary 1 ∧
    Library.navigate "/" sampleServer Library.Nav.last (sampleLibrary 1) = sampleLibrary 3 ∧
    (Library.handleLast "/" { libraryEntries := samplePage 1, search := "a b" }).map
        (fun r => r.url) = some "/library/songs/?page=last&title=a%20b" := by
  decide

end Dakara
